import Mathlib

/-!
Verification of the PULSE review scraper (`scraper.py`).

The per-source pipelines are embedded shallowly:
* Python `datetime.datetime` values become the `Datetime` structure (naive
  date-times, compared lexicographically, exactly as Python compares them).
* `parse_date_try` / `within_range` are translated directly from the source.
  `datetime.strptime` for the five fixed formats and `datetime.fromisoformat`
  are modelled character-faithfully for the format strings the script uses
  (CPython's `_strptime` regexes: `%Y` is exactly four digits, `%m`/`%d` are
  one or two digits, month names are matched case-insensitively, whitespace
  in a format matches a nonempty whitespace run, and the whole string must
  be consumed; `datetime(...)` construction validates year 1..9999, month
  1..12, and day against the month length including leap years).
* The HTML layer is abstracted at the review-card boundary: a `Card` holds
  the values the per-card element finders produce (each `Option`al, as a
  finder may find nothing), and a `Page` holds an HTTP status plus the list
  of cards the card-selector strategies produced for the fetched URL.
  Network fetching is a function from URL strings to `Page`s, and the
  first-result search link of the Locator is an `Option String` parameter.
* The unbounded `while True` pagination loop becomes fuel-indexed recursion.
* The Aggregator's stderr events are modelled by the `Diag` type, rendered
  to the exact printed strings by `diagText`.
-/

namespace Scraper

/-- Models a (naive) Python `datetime.datetime` value. -/
structure Datetime where
  year : Nat
  month : Nat
  day : Nat
  hour : Nat
  minute : Nat
  second : Nat
deriving DecidableEq, Repr

/-- Python `<` on datetimes: lexicographic on the six components. -/
def Datetime.lt (a b : Datetime) : Bool :=
  decide (a.year < b.year) || (a.year == b.year &&
    (decide (a.month < b.month) || (a.month == b.month &&
      (decide (a.day < b.day) || (a.day == b.day &&
        (decide (a.hour < b.hour) || (a.hour == b.hour &&
          (decide (a.minute < b.minute) || (a.minute == b.minute &&
            decide (a.second < b.second))))))))))

/-- Python `<=` on datetimes: lexicographic on the six components. -/
def Datetime.le (a b : Datetime) : Bool :=
  decide (a.year < b.year) || (a.year == b.year &&
    (decide (a.month < b.month) || (a.month == b.month &&
      (decide (a.day < b.day) || (a.day == b.day &&
        (decide (a.hour < b.hour) || (a.hour == b.hour &&
          (decide (a.minute < b.minute) || (a.minute == b.minute &&
            decide (a.second ≤ b.second))))))))))

/-- Gregorian leap-year test, as used by Python's `calendar`/`datetime`. -/
def isLeap (y : Nat) : Bool := (y % 4 == 0 && y % 100 != 0) || y % 400 == 0

/-- Number of days in a month, as validated by `datetime.datetime`. -/
def daysInMonth (y m : Nat) : Nat :=
  if m == 2 then (if isLeap y then 29 else 28)
  else if m == 4 || m == 6 || m == 9 || m == 11 then 30
  else 31

/-- Models the validating `datetime.datetime(y, m, d, h, mi, s)` constructor:
returns `none` exactly when CPython would raise `ValueError`. -/
def mkDatetime? (y m d h mi s : Nat) : Option Datetime :=
  if 1 ≤ y ∧ y ≤ 9999 ∧ 1 ≤ m ∧ m ≤ 12 ∧ 1 ≤ d ∧ d ≤ daysInMonth y m
      ∧ h ≤ 23 ∧ mi ≤ 59 ∧ s ≤ 59
  then some ⟨y, m, d, h, mi, s⟩ else none

/-- Date-only construction (`datetime.datetime(y, m, d)`, midnight). -/
def mkDate? (y m d : Nat) : Option Datetime := mkDatetime? y m d 0 0 0

/-- ASCII decimal digit test (the `\d` of CPython's `_strptime` regexes). -/
def isDigitChar (c : Char) : Bool := decide (48 ≤ c.toNat) && decide (c.toNat ≤ 57)

/-- Numeric value of an ASCII digit character. -/
def charDigit (c : Char) : Nat := c.toNat - 48

/-- One digit character; used by decimal rendering and zero-padding. -/
def digitChar : Nat → Char
  | 0 => '0'
  | 1 => '1'
  | 2 => '2'
  | 3 => '3'
  | 4 => '4'
  | 5 => '5'
  | 6 => '6'
  | 7 => '7'
  | 8 => '8'
  | _ => '9'

/-- `s` is a nonempty run of ASCII digits. -/
def isDigitStr (s : String) : Bool := !s.data.isEmpty && s.data.all isDigitChar

/-- Decimal value of a digit string. -/
def natOfDigits (s : String) : Nat := s.data.foldl (fun a c => a * 10 + charDigit c) 0

/-!
The scraper uses a handful of Python `str` operations (`strip`, `lower`,
`replace`, `rstrip`, `startswith`, `in`, f-string formatting) and the
embedding of `strptime`/`fromisoformat` needs splitting at separators.
These are modelled below directly on the character list of a `String`, by
structural recursion, so that every concrete scenario in this file can be
evaluated inside the kernel.
-/

/-- Split a character list at every character satisfying `p` (separators
are dropped; empty pieces are kept, as with one-character separators in
Python's `str.split`). -/
def splitPred (p : Char → Bool) : List Char → List (List Char)
  | [] => [[]]
  | c :: cs =>
    match splitPred p cs with
    | [] => [[]]
    | t :: ts => if p c then [] :: t :: ts else (c :: t) :: ts

/-- Split a string at every occurrence of the separator character. -/
def splitChar (sep : Char) (s : String) : List String :=
  (splitPred (fun c => c == sep) s.data).map (fun l => (⟨l⟩ : String))

/-- Python `str.strip()`: drop leading and trailing whitespace. -/
def strip (s : String) : String :=
  ⟨((s.data.dropWhile Char.isWhitespace).reverse.dropWhile Char.isWhitespace).reverse⟩

/-- `c` occurs in `s` (Python `c in s` for a one-character `c`). -/
def strContainsChar (s : String) (c : Char) : Bool := s.data.contains c

/-- `pat` occurs as a contiguous run inside `l`. -/
def listContainsSeq (pat : List Char) : List Char → Bool
  | [] => pat.isEmpty
  | c :: cs => pat.isPrefixOf (c :: cs) || listContainsSeq pat cs

/-- Python `pat in s` substring test. -/
def containsSubstr (s pat : String) : Bool := listContainsSeq pat.data s.data

/-- Python `s.startswith(pre)`. -/
def strStartsWith (s pre : String) : Bool := pre.data.isPrefixOf s.data

/-- Lower-case an ASCII letter (all the month names the parser compares
against are ASCII). -/
def charLower (c : Char) : Char :=
  match c with
  | 'A' => 'a'
  | 'B' => 'b'
  | 'C' => 'c'
  | 'D' => 'd'
  | 'E' => 'e'
  | 'F' => 'f'
  | 'G' => 'g'
  | 'H' => 'h'
  | 'I' => 'i'
  | 'J' => 'j'
  | 'K' => 'k'
  | 'L' => 'l'
  | 'M' => 'm'
  | 'N' => 'n'
  | 'O' => 'o'
  | 'P' => 'p'
  | 'Q' => 'q'
  | 'R' => 'r'
  | 'S' => 's'
  | 'T' => 't'
  | 'U' => 'u'
  | 'V' => 'v'
  | 'W' => 'w'
  | 'X' => 'x'
  | 'Y' => 'y'
  | 'Z' => 'z'
  | c => c

/-- Python `str.lower()` (on the ASCII range the scraper feeds it). -/
def lowerStr (s : String) : String := ⟨s.data.map charLower⟩

/-- Decimal digit list of `n`, most significant first (the fuel is an
upper bound on the digit count). -/
def natDigitsAux : Nat → Nat → List Char
  | 0, _ => []
  | fuel + 1, n => if n < 10 then [digitChar n] else natDigitsAux fuel (n / 10) ++ [digitChar (n % 10)]

/-- Decimal rendering of a `Nat` (Python `f"{n}"`). -/
def natToStr (n : Nat) : String := ⟨natDigitsAux (n + 1) n⟩

/-- `%Y`: exactly four digits (CPython regex `\d\d\d\d`). -/
def parseY4 (s : String) : Option Nat :=
  if s.data.length = 4 ∧ isDigitStr s = true then some (natOfDigits s) else none

/-- `%m` / `%d`: one or two digits; the numeric range is enforced by the
validating `datetime` constructor downstream. -/
def parseNum2 (s : String) : Option Nat :=
  if (s.data.length = 1 ∨ s.data.length = 2) ∧ isDigitStr s = true then
    some (natOfDigits s)
  else none

/-- Exactly two digits (as `fromisoformat` requires for month/day/time). -/
def parseTwoDigits (s : String) : Option Nat :=
  if s.data.length = 2 ∧ isDigitStr s = true then some (natOfDigits s) else none

/-- `%B`: full English month name, case-insensitive. -/
def monthOfFullName (s : String) : Option Nat :=
  match lowerStr s with
  | "january" => some 1
  | "february" => some 2
  | "march" => some 3
  | "april" => some 4
  | "may" => some 5
  | "june" => some 6
  | "july" => some 7
  | "august" => some 8
  | "september" => some 9
  | "october" => some 10
  | "november" => some 11
  | "december" => some 12
  | _ => none

/-- `%b`: abbreviated English month name, case-insensitive. -/
def monthOfAbbrevName (s : String) : Option Nat :=
  match lowerStr s with
  | "jan" => some 1
  | "feb" => some 2
  | "mar" => some 3
  | "apr" => some 4
  | "may" => some 5
  | "jun" => some 6
  | "jul" => some 7
  | "aug" => some 8
  | "sep" => some 9
  | "oct" => some 10
  | "nov" => some 11
  | "dec" => some 12
  | _ => none

/-- Split on whitespace runs, dropping empty pieces (a literal blank in a
`strptime` format matches a nonempty whitespace run). -/
def tokens (s : String) : List String :=
  ((splitPred Char.isWhitespace s.data).filter (fun t => !t.isEmpty)).map
    (fun l => (⟨l⟩ : String))

/-- `strptime(s, "%Y-%m-%d")`. -/
def strptimeYmd (s : String) : Option Datetime :=
  match splitChar '-' s with
  | [ys, ms, ds] => do
    let y ← parseY4 ys
    let m ← parseNum2 ms
    let d ← parseNum2 ds
    mkDate? y m d
  | _ => none

/-- `strptime(s, "%d-%m-%Y")`. -/
def strptimeDmY (s : String) : Option Datetime :=
  match splitChar '-' s with
  | [ds, ms, ys] => do
    let d ← parseNum2 ds
    let m ← parseNum2 ms
    let y ← parseY4 ys
    mkDate? y m d
  | _ => none

/-- `strptime(s, "%d %B %Y")`. -/
def strptimeDBY (s : String) : Option Datetime :=
  match tokens s with
  | [dTok, bTok, yTok] => do
    let d ← parseNum2 dTok
    let m ← monthOfFullName bTok
    let y ← parseY4 yTok
    mkDate? y m d
  | _ => none

/-- Day token immediately followed by a comma, as in `"%d, "`. -/
def parseDayComma (t : String) : Option Nat :=
  if t.data.getLast? == some ',' then parseNum2 ⟨t.data.dropLast⟩ else none

/-- `strptime(s, "%B %d, %Y")`. -/
def strptimeBdY (s : String) : Option Datetime :=
  match tokens s with
  | [bTok, dTok, yTok] => do
    let m ← monthOfFullName bTok
    let d ← parseDayComma dTok
    let y ← parseY4 yTok
    mkDate? y m d
  | _ => none

/-- `strptime(s, "%b %d, %Y")`. -/
def strptimeBabbrevdY (s : String) : Option Datetime :=
  match tokens s with
  | [bTok, dTok, yTok] => do
    let m ← monthOfAbbrevName bTok
    let d ← parseDayComma dTok
    let y ← parseY4 yTok
    mkDate? y m d
  | _ => none

/-- The date part `YYYY-MM-DD` of `datetime.fromisoformat` (zero-padded). -/
def fromisoDate (s : String) : Option (Nat × Nat × Nat) :=
  match splitChar '-' s with
  | [ys, ms, ds] => do
    let y ← parseY4 ys
    let m ← parseTwoDigits ms
    let d ← parseTwoDigits ds
    pure (y, m, d)
  | _ => none

/-- The time part of `datetime.fromisoformat`: `HH`, `HH:MM` or `HH:MM:SS`. -/
def fromisoTime (t : String) : Option (Nat × Nat × Nat) :=
  match splitChar ':' t with
  | [hs] => do
    let h ← parseTwoDigits hs
    pure (h, 0, 0)
  | [hs, ms] => do
    let h ← parseTwoDigits hs
    let mi ← parseTwoDigits ms
    pure (h, mi, 0)
  | [hs, ms, ss] => do
    let h ← parseTwoDigits hs
    let mi ← parseTwoDigits ms
    let se ← parseTwoDigits ss
    pure (h, mi, se)
  | _ => none

/-- Models `datetime.fromisoformat`: a zero-padded `YYYY-MM-DD` calendar
date, optionally followed by a one-character separator and a time of day
(fractional seconds and timezone offsets, which the scraper never feeds
it, are not modelled and yield `none`). -/
def fromisoformat (s : String) : Option Datetime :=
  if s.data.length ≤ 10 then do
    let (y, m, d) ← fromisoDate s
    mkDatetime? y m d 0 0 0
  else do
    let (y, m, d) ← fromisoDate ⟨s.data.take 10⟩
    let (h, mi, se) ← fromisoTime ⟨s.data.drop 11⟩
    mkDatetime? y m d h mi se

/-- The ordered `strptime` format list of `parse_date_try`, in source order:
`"%Y-%m-%d"`, `"%d-%m-%Y"`, `"%d %B %Y"`, `"%B %d, %Y"`, `"%b %d, %Y"`. -/
def strptimeFormats : List (String → Option Datetime) :=
  [strptimeYmd, strptimeDmY, strptimeDBY, strptimeBdY, strptimeBabbrevdY]

/-- First successful parse among a list of parsers (the `for fmt in ...`
loop of `parse_date_try`). -/
def firstSome (s : String) : List (String → Option Datetime) → Option Datetime
  | [] => none
  | f :: fs =>
    match f s with
    | some d => some d
    | none => firstSome s fs

/-- `parse_date_try` (scraper.py lines 28-38): tries the five fixed formats
on the stripped string, then falls back to `fromisoformat` on the raw
string, and returns `none` when everything fails. -/
def parse_date_try (s : String) : Option Datetime :=
  match firstSome (strip s) strptimeFormats with
  | some d => some d
  | none => fromisoformat s

/-- `within_range` (scraper.py lines 40-45): a `None` bound imposes no
constraint; otherwise the record date must not be strictly before `start`
nor strictly after `stop`. -/
def within_range (d : Datetime) (start stop : Option Datetime) : Bool :=
  if (match start with | some s => Datetime.lt d s | none => false) then false
  else if (match stop with | some e => Datetime.lt e d | none => false) then false
  else true

/-- Two-digit zero-padded decimal (faithful for `n ≤ 99`; every field of a
Python `datetime` other than the year is below 100). -/
def pad2 (n : Nat) : String := ⟨[digitChar (n / 10 % 10), digitChar (n % 10)]⟩

/-- Four-digit zero-padded decimal (faithful for `n ≤ 9999`; a Python
`datetime` year is always in 1..9999). -/
def pad4 (n : Nat) : String :=
  ⟨[digitChar (n / 1000 % 10), digitChar (n / 100 % 10), digitChar (n / 10 % 10),
    digitChar (n % 10)]⟩

/-- Models `datetime.isoformat()` on whole-second datetimes:
`YYYY-MM-DDTHH:MM:SS`. -/
def Datetime.isoformat (d : Datetime) : String :=
  pad4 d.year ++ "-" ++ pad2 d.month ++ "-" ++ pad2 d.day ++ "T" ++
    pad2 d.hour ++ ":" ++ pad2 d.minute ++ ":" ++ pad2 d.second

/-- `s` has the exact shape of an ISO-8601 calendar date, `YYYY-MM-DD`. -/
def isIsoCalendarDate (s : String) : Bool :=
  match s.data with
  | [y1, y2, y3, y4, h1, m1, m2, h2, d1, d2] =>
    isDigitChar y1 && isDigitChar y2 && isDigitChar y3 && isDigitChar y4 &&
      h1 == '-' && isDigitChar m1 && isDigitChar m2 && h2 == '-' &&
      isDigitChar d1 && isDigitChar d2
  | _ => false

/-- `s` has the exact shape of an ISO-8601 date-time, `YYYY-MM-DDTHH:MM:SS`. -/
def isIsoDatetimeString (s : String) : Bool :=
  match s.data with
  | [y1, y2, y3, y4, h1, m1, m2, h2, d1, d2, t, hh1, hh2, c1, mi1, mi2, c2, s1, s2] =>
    isDigitChar y1 && isDigitChar y2 && isDigitChar y3 && isDigitChar y4 &&
      h1 == '-' && isDigitChar m1 && isDigitChar m2 && h2 == '-' &&
      isDigitChar d1 && isDigitChar d2 && t == 'T' &&
      isDigitChar hh1 && isDigitChar hh2 && c1 == ':' &&
      isDigitChar mi1 && isDigitChar mi2 && c2 == ':' &&
      isDigitChar s1 && isDigitChar s2
  | _ => false

/-- The date element a card's date finder located: an optional
machine-readable `datetime` attribute, plus the element's stripped text. -/
structure DateTag where
  datetimeAttr : Option String
  text : String
deriving DecidableEq, Repr

/-- One review card, abstracted at the result of the per-field element
finders (each `Option`al: `none` means the finder matched nothing). -/
structure Card where
  title : Option String
  body : Option String
  dateTag : Option DateTag
  rating : Option String
  reviewer : Option String
deriving DecidableEq, Repr

/-- The record dictionary appended to `reviews` by every pipeline. -/
structure ReviewRecord where
  title : String
  review : String
  date : String
  rating : String
  reviewer : String
  source : String
deriving DecidableEq, Repr

/-- One fetched listing page: its HTTP status and the review cards the
card-selector strategies produced (empty both when no selector matched
and when the matched selection was empty). -/
structure Page where
  status : Nat
  items : List Card
deriving Repr

/-- `date_text` as computed in every pipeline: prefer a truthy (nonempty)
`datetime` attribute, else the element text, else the empty string when no
date element was found. -/
def dateTextOf (c : Card) : String :=
  match c.dateTag with
  | none => ""
  | some t =>
    match t.datetimeAttr with
    | some a => if a = "" then t.text else a
    | none => t.text

/-- The per-card body of every pipeline's item loop (scraper.py lines
91-115 for g2, 158-181 for capterra, 221-244 for trustradius): parse the
date text when nonempty, drop the card when the parse succeeded and the
date is out of range, otherwise build the record (the `date` field is the
`isoformat` of the parsed date, else the raw text). -/
def extractCard (src : String) (start stop : Option Datetime) (c : Card) :
    Option ReviewRecord :=
  let date_text := dateTextOf c
  let date_obj := if date_text = "" then none else parse_date_try date_text
  match date_obj with
  | some d =>
    if within_range d start stop then
      some ⟨c.title.getD "", c.body.getD "", d.isoformat, c.rating.getD "",
        c.reviewer.getD "", src⟩
    else none
  | none =>
    some ⟨c.title.getD "", c.body.getD "", date_text, c.rating.getD "",
      c.reviewer.getD "", src⟩

/-- The records a processed page contributes to `reviews`; its length is
the final value of the per-page `added` counter. -/
def pageRecords (src : String) (start stop : Option Datetime) (items : List Card) :
    List ReviewRecord :=
  items.filterMap (extractCard src start stop)

/-- The pagination loop shared by the three pipelines (`while True` with a
1-based page counter), with explicit fuel standing for the unbounded loop:
stop on a non-200 response, on no card-selector match (empty `items`), or
when the page's `added` counter stays zero; otherwise keep the page's
records and continue on the next page. -/
def paginate (src : String) (start stop : Option Datetime)
    (pageUrl : Nat → String) (fetch : String → Page) :
    Nat → Nat → List ReviewRecord
  | 0, _ => []
  | fuel + 1, page =>
    let p := fetch (pageUrl page)
    if p.status ≠ 200 then []
    else if p.items = [] then []
    else
      let recs := pageRecords src start stop p.items
      if recs = [] then []
      else recs ++ paginate src start stop pageUrl fetch fuel (page + 1)

/-- Python `str.rstrip("/")`: drop every trailing slash. -/
def rstripSlash (s : String) : String :=
  ⟨(s.data.reverse.dropWhile (fun c => c == '/')).reverse⟩

/-- `company.lower().replace(" ", "-")`. -/
def slugOf (company : String) : String :=
  ⟨(company.data.map charLower).map (fun c => if c == ' ' then '-' else c)⟩

/-- g2 Locator (scraper.py lines 58-73): a URL input is returned with
trailing slashes stripped; otherwise the first search-result link (`href`
truthy) is appended to the site base, with a slug-template fallback. -/
def locate_g2 (company : String) (searchLink : Option String) : String :=
  if strStartsWith company "http" then rstripSlash company
  else
    match searchLink with
    | some h =>
      if h ≠ "" then "https://www.g2.com" ++ h
      else "https://www.g2.com/products/" ++ slugOf company ++ "/reviews"
    | none => "https://www.g2.com/products/" ++ slugOf company ++ "/reviews"

/-- capterra Locator (scraper.py lines 129-142). -/
def locate_capterra (company : String) (searchLink : Option String) : String :=
  if strStartsWith company "http" then rstripSlash company
  else
    match searchLink with
    | some h =>
      if h ≠ "" then "https://www.capterra.com" ++ h
      else "https://www.capterra.com/p/" ++ slugOf company ++ "/#reviews"
    | none => "https://www.capterra.com/p/" ++ slugOf company ++ "/#reviews"

/-- trustradius Locator (scraper.py lines 195-207). -/
def locate_trustradius (company : String) (searchLink : Option String) : String :=
  if strStartsWith company "http" then rstripSlash company
  else
    match searchLink with
    | some h =>
      if h ≠ "" then "https://www.trustradius.com" ++ h
      else "https://www.trustradius.com/products/" ++ slugOf company ++ "/reviews"
    | none => "https://www.trustradius.com/products/" ++ slugOf company ++ "/reviews"

/-- g2 page URL (scraper.py line 78): `?page=N` when the URL has no `?`,
else `&page=N`. -/
def g2PageUrl (product_url : String) (page : Nat) : String :=
  product_url ++
    (if !strContainsChar product_url '?' then "?page=" ++ natToStr page
     else "&page=" ++ natToStr page)

/-- capterra page URL (scraper.py line 146): same rule as g2. -/
def capPageUrl (product_url : String) (page : Nat) : String :=
  product_url ++
    (if !strContainsChar product_url '?' then "?page=" ++ natToStr page
     else "&page=" ++ natToStr page)

/-- trustradius page URL (scraper.py line 211): `/reviews?page=N` when the
URL does not contain `/reviews`, else `?page=N`. -/
def trPageUrl (product_url : String) (page : Nat) : String :=
  product_url ++
    (if !containsSubstr product_url "/reviews" then "/reviews?page=" ++ natToStr page
     else "?page=" ++ natToStr page)

/-- The page-URL rule §4.2 of the spec states for every pipeline, written
from the spec's words for comparison with the source rules. -/
def specPageUrl (product_url : String) (page : Nat) : String :=
  product_url ++
    (if strContainsChar product_url '?' then "&page=" ++ natToStr page
     else "?page=" ++ natToStr page)

/-- `scrape_g2` (scraper.py lines 47-120) at the card abstraction:
Locator, then the pagination loop from page 1. -/
def scrape_g2 (company : String) (start stop : Option Datetime)
    (searchLink : Option String) (fetch : String → Page) (fuel : Nat) :
    List ReviewRecord :=
  paginate "g2" start stop (g2PageUrl (locate_g2 company searchLink)) fetch fuel 1

/-- `scrape_capterra` (scraper.py lines 122-186). -/
def scrape_capterra (company : String) (start stop : Option Datetime)
    (searchLink : Option String) (fetch : String → Page) (fuel : Nat) :
    List ReviewRecord :=
  paginate "capterra" start stop (capPageUrl (locate_capterra company searchLink))
    fetch fuel 1

/-- `scrape_trustradius` (scraper.py lines 188-249). -/
def scrape_trustradius (company : String) (start stop : Option Datetime)
    (searchLink : Option String) (fetch : String → Page) (fuel : Nat) :
    List ReviewRecord :=
  paginate "trustradius" start stop
    (trPageUrl (locate_trustradius company searchLink)) fetch fuel 1

/-- The three source tags, in `main`'s fixed order. -/
inductive Source
  | g2
  | capterra
  | trustradius
deriving DecidableEq, Repr

/-- The tag string of a source. -/
def sourceName : Source → String
  | .g2 => "g2"
  | .capterra => "capterra"
  | .trustradius => "trustradius"

/-- One stderr event of `main`'s per-source loop. -/
inductive Diag
  | found (src : String) (n : Nat)
  | error (src : String) (msg : String)
deriving DecidableEq, Repr

/-- The exact text `main` prints for a diagnostic event. -/
def diagText : Diag → String
  | .found src n => "Found " ++ natToStr n ++ " reviews from " ++ src
  | .error src msg => "Error scraping " ++ src ++ ": " ++ msg

/-- `Diag.error` recognizer. -/
def isErrorDiag : Diag → Bool
  | .error _ _ => true
  | .found _ _ => false

/-- `main`'s per-source loop (scraper.py lines 263-278): each source's
pipeline result is either a record list or a raised exception message;
an exception is caught, reported, and the loop continues; successful
results are concatenated in source order. -/
def runSources (pipes : Source → Except String (List ReviewRecord)) :
    List Source → List ReviewRecord × List Diag
  | [] => ([], [])
  | s :: ss =>
    let rest := runSources pipes ss
    match pipes s with
    | .ok r => (r ++ rest.1, .found (sourceName s) r.length :: rest.2)
    | .error e => (rest.1, .error (sourceName s) e :: rest.2)

/-- CLI bound parsing (scraper.py lines 260-261): an absent or empty
`--start`/`--end` value is `None`; otherwise the value goes through
`parse_date_try` (so an unparseable value also becomes `None`). -/
def parseBound (arg : Option String) : Option Datetime :=
  match arg with
  | none => none
  | some s => if s = "" then none else parse_date_try s

/-- `main` after argument parsing, abstracted over the per-source pipeline
outcomes: parse the two bounds, then run the per-source loop. -/
def runMain (pipes : Source → Option Datetime → Option Datetime →
      Except String (List ReviewRecord))
    (startArg endArg : Option String) (sources : List Source) :
    List ReviewRecord × List Diag :=
  runSources (fun s => pipes s (parseBound startArg) (parseBound endArg)) sources

/-!
Concrete scenarios used to instantiate the theorems below.
-/

/-- Lower bound 2020-01-01 used by the pagination scenario. -/
def c1Start : Datetime := ⟨2020, 1, 1, 0, 0, 0⟩

/-- A card whose parsed date (2000-01-01) is below `c1Start`. -/
def c1CardOld : Card := ⟨none, none, some ⟨none, "2000-01-01"⟩, none, none⟩

/-- A card whose parsed date (2023-05-05) is inside the range. -/
def c1CardNew : Card := ⟨none, none, some ⟨none, "2023-05-05"⟩, none, none⟩

/-- A site whose page 1 holds only the out-of-range card and whose page 2
holds the in-range card. -/
def c1Fetch : String → Page := fun u =>
  if u = "https://x.example/p?page=1" then ⟨200, [c1CardOld]⟩
  else if u = "https://x.example/p?page=2" then ⟨200, [c1CardNew]⟩
  else ⟨200, []⟩

/-- A card whose date text parses to no date at all. -/
def c2Card : Card := ⟨some "T", some "B", some ⟨none, "garbage"⟩, none, none⟩

/-- The listing URL of the trustradius page-URL scenario: it contains both
`/reviews` and a query string. -/
def c3Url : String := "https://www.trustradius.com/products/zoom/reviews?lang=en"

/-- A card carrying a machine-readable ISO date attribute. -/
def c6Card : Card := ⟨some "Great", some "Body", some ⟨some "2023-01-05", "Jan 5, 2023"⟩, some "5", some "Ann"⟩

/-- A record of the aggregator scenario, tagged with its source. -/
def c7Record (src : String) : ReviewRecord := ⟨"t", "b", "2023-01-05", "5", "u", src⟩

/-- Aggregator scenario: g2 raises a transport error, capterra returns 3
records, trustradius returns 5. -/
def c7Pipes : Source → Except String (List ReviewRecord)
  | .g2 => .error "connection timeout"
  | .capterra => .ok (List.replicate 3 (c7Record "capterra"))
  | .trustradius => .ok (List.replicate 5 (c7Record "trustradius"))

/-- A one-page site used to exhibit a concrete pipeline record. -/
def c9Fetch : String → Page := fun u =>
  if u = "https://y.example/p?page=1" then ⟨200, [⟨some "T", none, none, none, none⟩]⟩
  else ⟨404, []⟩

/-- Pipelines whose output depends on whether a start bound was supplied. -/
def c10Pipes : Source → Option Datetime → Option Datetime →
    Except String (List ReviewRecord) :=
  fun _ b1 _ =>
    match b1 with
    | some _ => .ok []
    | none => .ok [⟨"t", "b", "2023-01-05", "5", "u", "g2"⟩]

/-!
Theorems.
-/

theorem Datetime.lt_iff (a b : Datetime) : Datetime.lt a b = true ↔
    (a.year < b.year ∨ (a.year = b.year ∧ (a.month < b.month ∨ (a.month = b.month ∧
      (a.day < b.day ∨ (a.day = b.day ∧ (a.hour < b.hour ∨ (a.hour = b.hour ∧
        (a.minute < b.minute ∨ (a.minute = b.minute ∧ a.second < b.second)))))))))) := by
  simp [Datetime.lt, Bool.or_eq_true, Bool.and_eq_true, decide_eq_true_eq, beq_iff_eq]

theorem Datetime.le_iff (a b : Datetime) : Datetime.le a b = true ↔
    (a.year < b.year ∨ (a.year = b.year ∧ (a.month < b.month ∨ (a.month = b.month ∧
      (a.day < b.day ∨ (a.day = b.day ∧ (a.hour < b.hour ∨ (a.hour = b.hour ∧
        (a.minute < b.minute ∨ (a.minute = b.minute ∧ a.second ≤ b.second)))))))))) := by
  simp [Datetime.le, Bool.or_eq_true, Bool.and_eq_true, decide_eq_true_eq, beq_iff_eq]

theorem Datetime.le_eq_not_lt (a b : Datetime) :
    Datetime.le a b = !Datetime.lt b a := by
  have h1 := Datetime.le_iff a b
  have h2 := Datetime.lt_iff b a
  cases hle : Datetime.le a b <;> cases hlt : Datetime.lt b a <;>
    simp_all <;> omega

/-- C4. The range check `within_range` succeeds exactly when the date lies
between the bounds: a `None` endpoint imposes no constraint, a non-null
`start` requires `start ≤ d`, a non-null `end` requires `d ≤ end` (both
inclusive); with both bounds null it accepts every date. -/
theorem within_range_iff_bounds (d : Datetime) (s e : Option Datetime) :
    (within_range d s e = true ↔
      (∀ a, s = some a → Datetime.le a d = true) ∧
      (∀ b, e = some b → Datetime.le d b = true)) ∧
    within_range d none none = true := by
  constructor
  · rcases s with _ | a <;> rcases e with _ | b
    · simp [within_range]
    · cases hb : Datetime.lt b d <;>
        simp [within_range, hb, Datetime.le_eq_not_lt]
    · cases ha : Datetime.lt d a <;>
        simp [within_range, ha, Datetime.le_eq_not_lt]
    · cases ha : Datetime.lt d a <;> cases hb : Datetime.lt b d <;>
        simp [within_range, ha, hb, Datetime.le_eq_not_lt]
  · simp [within_range]

/-- Closed instance of `within_range_iff_bounds`: with both bounds null
every date is in range. -/
theorem within_range_iff_bounds_witness :
    within_range ⟨1999, 12, 31, 23, 59, 59⟩ none none = true :=
  (within_range_iff_bounds ⟨1999, 12, 31, 23, 59, 59⟩ none none).2

/-- C5. `parse_date_try` tries the five fixed `strptime` formats in their
source order on the stripped input and returns the first success; when all
five fail it returns whatever the generic `fromisoformat` fallback gives
(`none` when that fails too). -/
theorem parse_date_try_format_order (s : String) :
    (∀ d, strptimeYmd (strip s) = some d → parse_date_try s = some d) ∧
    (strptimeYmd (strip s) = none →
      ∀ d, strptimeDmY (strip s) = some d → parse_date_try s = some d) ∧
    (strptimeYmd (strip s) = none → strptimeDmY (strip s) = none →
      ∀ d, strptimeDBY (strip s) = some d → parse_date_try s = some d) ∧
    (strptimeYmd (strip s) = none → strptimeDmY (strip s) = none →
      strptimeDBY (strip s) = none →
      ∀ d, strptimeBdY (strip s) = some d → parse_date_try s = some d) ∧
    (strptimeYmd (strip s) = none → strptimeDmY (strip s) = none →
      strptimeDBY (strip s) = none → strptimeBdY (strip s) = none →
      ∀ d, strptimeBabbrevdY (strip s) = some d → parse_date_try s = some d) ∧
    (strptimeYmd (strip s) = none → strptimeDmY (strip s) = none →
      strptimeDBY (strip s) = none → strptimeBdY (strip s) = none →
      strptimeBabbrevdY (strip s) = none → parse_date_try s = fromisoformat s) := by
  refine ⟨?_, ?_, ?_, ?_, ?_, ?_⟩ <;>
    · intros
      simp_all [parse_date_try, strptimeFormats, firstSome]

/-- Closed instances of `parse_date_try_format_order`: the second format
`%d-%m-%Y` wins on `" 05-01-2023 "` once the first has failed, and a string
matching none of the five formats falls through to `fromisoformat`. -/
theorem parse_date_try_format_order_witness :
    parse_date_try " 05-01-2023 " = some ⟨2023, 1, 5, 0, 0, 0⟩ ∧
    parse_date_try "2023-01-05T14:30:00" = fromisoformat "2023-01-05T14:30:00" :=
  ⟨(parse_date_try_format_order " 05-01-2023 ").2.1 (by decide)
      ⟨2023, 1, 5, 0, 0, 0⟩ (by decide),
    (parse_date_try_format_order "2023-01-05T14:30:00").2.2.2.2.2 (by decide)
      (by decide) (by decide) (by decide) (by decide)⟩

/-- C10. An unparseable `--start` value silently becomes a null bound: the
parsed bound is `None`, no exception escapes (the model is total), and the
whole run — records and diagnostics alike — is identical to a run where
the bound was never supplied. -/
theorem unparseable_bound_silently_null
    (pipes : Source → Option Datetime → Option Datetime →
      Except String (List ReviewRecord))
    (s : String) (endArg : Option String) (sources : List Source)
    (h : parse_date_try s = none) :
    parseBound (some s) = none ∧
    runMain pipes (some s) endArg sources = runMain pipes none endArg sources ∧
    (∀ e, parse_date_try e = none →
      runMain pipes (some s) (some e) sources = runMain pipes none none sources) := by
  have hb : parseBound (some s) = none := by
    by_cases he : s = "" <;> simp [parseBound, he, h]
  refine ⟨hb, ?_, ?_⟩
  · unfold runMain
    rw [hb]
    rfl
  · intro e hee
    have hbe : parseBound (some e) = none := by
      by_cases he : e = "" <;> simp [parseBound, he, hee]
    unfold runMain
    rw [hb, hbe]
    rfl

/-- Closed instance of `unparseable_bound_silently_null` at the unparseable
value `"next-tuesday"`, on pipelines whose output depends on the bound. -/
theorem unparseable_bound_silently_null_witness :
    runMain c10Pipes (some "next-tuesday") none [Source.g2] =
      runMain c10Pipes none none [Source.g2] :=
  (unparseable_bound_silently_null c10Pipes "next-tuesday" none [Source.g2]
    (by decide)).2.1

/-- C3 counterexample: on a trustradius listing URL that already contains a
query string, the fetched page URL appends `?page=1`, not the `&page=1`
the claim requires for every pipeline. -/
theorem trustradius_page_url_breaks_query_rule :
    strContainsChar c3Url '?' = true ∧
    trPageUrl c3Url 1 = "https://www.trustradius.com/products/zoom/reviews?lang=en?page=1" ∧
    specPageUrl c3Url 1 = "https://www.trustradius.com/products/zoom/reviews?lang=en&page=1" ∧
    trPageUrl c3Url 1 ≠ specPageUrl c3Url 1 := by
  decide

/-- C3 as amended: g2 and capterra build the page URL with `?page=N` when
the listing URL has no query string and `&page=N` otherwise, while
trustradius instead appends `/reviews?page=N` when the URL does not contain
`/reviews` and `?page=N` when it does. -/
theorem page_url_construction (u : String) (n : Nat) :
    g2PageUrl u n = specPageUrl u n ∧
    capPageUrl u n = specPageUrl u n ∧
    (containsSubstr u "/reviews" = true →
      trPageUrl u n = u ++ ("?page=" ++ natToStr n)) ∧
    (containsSubstr u "/reviews" = false →
      trPageUrl u n = u ++ ("/reviews?page=" ++ natToStr n)) := by
  refine ⟨?_, ?_, ?_, ?_⟩
  · by_cases h : strContainsChar u '?' <;> simp [g2PageUrl, specPageUrl, h]
  · by_cases h : strContainsChar u '?' <;> simp [capPageUrl, specPageUrl, h]
  · intro h; simp [trPageUrl, h]
  · intro h; simp [trPageUrl, h]

/-- Closed instance of `page_url_construction`: a trustradius product URL
without `/reviews` gets `/reviews?page=4` appended. -/
theorem page_url_construction_witness :
    trPageUrl "https://www.trustradius.com/products/zoom" 4 =
      "https://www.trustradius.com/products/zoom" ++ ("/reviews?page=" ++ natToStr 4) :=
  (page_url_construction "https://www.trustradius.com/products/zoom" 4).2.2.2
    (by decide)

/-- C7. The aggregator loop isolates failures: the output is the ordered
concatenation of the successful sources' records (a failing source
contributes nothing and later sources still run), the diagnostic stream
reports one event per source naming it, and in the concrete scenario of one
transport error plus successes of 3 and 5 records the output has length 8
with exactly one error diagnostic naming the failed source. -/
theorem aggregator_isolation_and_order
    (pipes : Source → Except String (List ReviewRecord)) (sources : List Source) :
    (runSources pipes sources).1 =
      sources.flatMap (fun s => match pipes s with | .ok r => r | .error _ => []) ∧
    (runSources pipes sources).2 =
      sources.map (fun s =>
        match pipes s with
        | .ok r => Diag.found (sourceName s) r.length
        | .error e => Diag.error (sourceName s) e) ∧
    (runSources c7Pipes [Source.g2, Source.capterra, Source.trustradius]).1.length = 8 ∧
    (runSources c7Pipes [Source.g2, Source.capterra, Source.trustradius]).2.filter
      isErrorDiag = [Diag.error "g2" "connection timeout"] := by
  refine ⟨?_, ?_, by decide, by decide⟩
  · induction sources with
    | nil => simp [runSources]
    | cons s ss ih => cases h : pipes s <;> simp [runSources, h, ih]
  · induction sources with
    | nil => simp [runSources]
    | cons s ss ih => cases h : pipes s <;> simp [runSources, h, ih]

/-- Closed instance of `aggregator_isolation_and_order`: the 3-source
scenario with one failure yields 8 records. -/
theorem aggregator_isolation_and_order_witness :
    (runSources c7Pipes [Source.g2, Source.capterra, Source.trustradius]).1.length = 8 :=
  (aggregator_isolation_and_order c7Pipes
    [Source.g2, Source.capterra, Source.trustradius]).2.2.1

theorem isDigitChar_digitChar (n : Nat) : isDigitChar (digitChar n) = true := by
  unfold digitChar
  split <;> decide

theorem isoformat_shape (d : Datetime) : isIsoDatetimeString d.isoformat = true := by
  have hd : d.isoformat.data =
      [digitChar (d.year / 1000 % 10), digitChar (d.year / 100 % 10),
        digitChar (d.year / 10 % 10), digitChar (d.year % 10), '-',
        digitChar (d.month / 10 % 10), digitChar (d.month % 10), '-',
        digitChar (d.day / 10 % 10), digitChar (d.day % 10), 'T',
        digitChar (d.hour / 10 % 10), digitChar (d.hour % 10), ':',
        digitChar (d.minute / 10 % 10), digitChar (d.minute % 10), ':',
        digitChar (d.second / 10 % 10), digitChar (d.second % 10)] := rfl
  simp [isIsoDatetimeString, hd, isDigitChar_digitChar]

theorem extractCard_of_unparsed (src : String) (b1 b2 : Option Datetime) (c : Card)
    (h : parse_date_try (dateTextOf c) = none) :
    extractCard src b1 b2 c =
      some ⟨c.title.getD "", c.body.getD "", dateTextOf c, c.rating.getD "",
        c.reviewer.getD "", src⟩ := by
  by_cases ht : dateTextOf c = "" <;> simp [extractCard, ht, h]

theorem extractCard_eq_none_iff (src : String) (b1 b2 : Option Datetime) (c : Card) :
    extractCard src b1 b2 c = none ↔
      ∃ d, dateTextOf c ≠ "" ∧ parse_date_try (dateTextOf c) = some d ∧
        within_range d b1 b2 = false := by
  by_cases ht : dateTextOf c = ""
  · simp [extractCard, ht]
  · cases hp : parse_date_try (dateTextOf c) with
    | none => simp [extractCard, ht, hp]
    | some d =>
      cases hw : within_range d b1 b2 with
      | true => simp [extractCard, ht, hp, hw]
      | false => simp [extractCard, ht, hp, hw]

theorem extractCard_of_parsed (src : String) (b1 b2 : Option Datetime) (c : Card)
    (d : Datetime) (ht : dateTextOf c ≠ "")
    (hp : parse_date_try (dateTextOf c) = some d) :
    extractCard src b1 b2 c =
      if within_range d b1 b2 then
        some ⟨c.title.getD "", c.body.getD "", d.isoformat, c.rating.getD "",
          c.reviewer.getD "", src⟩
      else none := by
  simp only [extractCard]
  rw [if_neg ht, hp]

theorem extractCard_source (src : String) (b1 b2 : Option Datetime) (c : Card)
    (r : ReviewRecord) (h : extractCard src b1 b2 c = some r) : r.source = src := by
  by_cases ht : dateTextOf c = ""
  · rw [extractCard_of_unparsed src b1 b2 c (by rw [ht]; decide)] at h
    cases Option.some.inj h
    rfl
  · cases hp : parse_date_try (dateTextOf c) with
    | none =>
      rw [extractCard_of_unparsed src b1 b2 c hp] at h
      cases Option.some.inj h
      rfl
    | some d =>
      rw [extractCard_of_parsed src b1 b2 c d ht hp] at h
      split at h
      · cases Option.some.inj h
        rfl
      · exact absurd h (by simp)

theorem mem_paginate_source (src : String) (b1 b2 : Option Datetime)
    (pageUrl : Nat → String) (fetch : String → Page) :
    ∀ (fuel page : Nat) (r : ReviewRecord),
      r ∈ paginate src b1 b2 pageUrl fetch fuel page → r.source = src := by
  intro fuel
  induction fuel with
  | zero => intro page r h; simp [paginate] at h
  | succ n ih =>
    intro page r h
    simp only [paginate] at h
    split at h
    · simp at h
    · split at h
      · simp at h
      · split at h
        · simp at h
        · rcases List.mem_append.mp h with hm | hm
          · obtain ⟨c, -, hcr⟩ := List.mem_filterMap.mp hm
            exact extractCard_source src b1 b2 c r hcr
          · exact ih (page + 1) r hm

/-- C1 counterexample: the per-page `added` counter counts only retained
records. On a site whose page 1 contains one extracted card whose parsed
date falls below the requested start bound, and whose page 2 contains an
in-range card, the g2 pipeline returns no records at all: the date-filtered
page terminated pagination even though a card was extracted from it, so the
loop does stop on zero retained (not zero extracted) cards. -/
theorem c1_filtered_page_stops_pagination :
    (c1Fetch (g2PageUrl (locate_g2 "https://x.example/p" none) 1)).status = 200 ∧
    (c1Fetch (g2PageUrl (locate_g2 "https://x.example/p" none) 1)).items = [c1CardOld] ∧
    pageRecords "g2" (some c1Start) none [c1CardOld] = [] ∧
    extractCard "g2" (some c1Start) none c1CardNew =
      some ⟨"", "", "2023-05-05T00:00:00", "", "", "g2"⟩ ∧
    (c1Fetch (g2PageUrl (locate_g2 "https://x.example/p" none) 2)).items = [c1CardNew] ∧
    scrape_g2 "https://x.example/p" (some c1Start) none none c1Fetch 10 = [] := by
  decide

/-- C1 as amended: pagination stops on a non-success response, on a page
with no extracted cards, or on a page whose retained-record list is empty —
in particular a page whose extracted cards are all dropped by the date
filter stops the loop — and otherwise appends the page's retained records
and continues with the next page. -/
theorem paginate_stops_on_zero_retained (src : String) (b1 b2 : Option Datetime)
    (pageUrl : Nat → String) (fetch : String → Page) (fuel page : Nat) :
    ((fetch (pageUrl page)).status ≠ 200 →
      paginate src b1 b2 pageUrl fetch (fuel + 1) page = []) ∧
    ((fetch (pageUrl page)).items = [] →
      paginate src b1 b2 pageUrl fetch (fuel + 1) page = []) ∧
    (pageRecords src b1 b2 (fetch (pageUrl page)).items = [] →
      paginate src b1 b2 pageUrl fetch (fuel + 1) page = []) ∧
    ((fetch (pageUrl page)).status = 200 →
      pageRecords src b1 b2 (fetch (pageUrl page)).items ≠ [] →
      paginate src b1 b2 pageUrl fetch (fuel + 1) page =
        pageRecords src b1 b2 (fetch (pageUrl page)).items ++
          paginate src b1 b2 pageUrl fetch fuel (page + 1)) := by
  refine ⟨?_, ?_, ?_, ?_⟩
  · intro h
    rw [paginate]
    simp [h]
  · intro h
    rw [paginate]
    simp [h]
  · intro h
    rw [paginate]
    by_cases h200 : (fetch (pageUrl page)).status ≠ 200
    · simp [h200]
    · by_cases hit : (fetch (pageUrl page)).items = [] <;> simp [h200, hit, h]
  · intro h200 hne
    have hit : (fetch (pageUrl page)).items ≠ [] := by
      intro hi
      exact hne (by simp [pageRecords, hi])
    rw [paginate]
    simp [h200, hit, hne]

/-- Closed instance of `paginate_stops_on_zero_retained` at the concrete
scenario of `c1_filtered_page_stops_pagination`: page 1 retains nothing, so
the loop returns no records. -/
theorem paginate_stops_on_zero_retained_witness :
    paginate "g2" (some c1Start) none (g2PageUrl "https://x.example/p") c1Fetch 10 1 = [] :=
  (paginate_stops_on_zero_retained "g2" (some c1Start) none
    (g2PageUrl "https://x.example/p") c1Fetch 9 1).2.2.1 (by decide)

/-- C2. A card whose date text does not parse (including a missing date
element, whose text is empty) is never excluded: its extraction succeeds,
its record — carrying the raw text in `date` — is among the page's
retained records, and conversely a card is dropped only when its nonempty
date text parsed successfully to a date outside the bounds. -/
theorem unparseable_date_never_filtered (src : String) (b1 b2 : Option Datetime)
    (c : Card) (items : List Card)
    (h : parse_date_try (dateTextOf c) = none ∨ c.dateTag = none)
    (hc : c ∈ items) :
    (∃ r, extractCard src b1 b2 c = some r ∧ r ∈ pageRecords src b1 b2 items ∧
      r.date = dateTextOf c) ∧
    (∀ c', extractCard src b1 b2 c' = none →
      ∃ d, dateTextOf c' ≠ "" ∧ parse_date_try (dateTextOf c') = some d ∧
        within_range d b1 b2 = false) := by
  constructor
  · have hval : extractCard src b1 b2 c =
        some ⟨c.title.getD "", c.body.getD "", dateTextOf c, c.rating.getD "",
          c.reviewer.getD "", src⟩ := by
      rcases h with h | h
      · exact extractCard_of_unparsed src b1 b2 c h
      · have ht : dateTextOf c = "" := by simp [dateTextOf, h]
        exact extractCard_of_unparsed src b1 b2 c (by rw [ht]; decide)
    exact ⟨_, hval, List.mem_filterMap.mpr ⟨c, hc, hval⟩, rfl⟩
  · intro c' h'
    exact (extractCard_eq_none_iff src b1 b2 c').mp h'

/-- Closed instance of `unparseable_date_never_filtered`: with a full
boundary supplied, the record of a card with raw date `"garbage"` appears
in the filtered page output. -/
theorem unparseable_date_never_filtered_witness :
    (⟨"T", "B", "garbage", "", "", "capterra"⟩ : ReviewRecord) ∈
      pageRecords "capterra" (some ⟨2023, 1, 1, 0, 0, 0⟩)
        (some ⟨2024, 12, 31, 0, 0, 0⟩) [c2Card] := by
  obtain ⟨⟨r, hr, hmem, -⟩, -⟩ := unparseable_date_never_filtered "capterra"
    (some ⟨2023, 1, 1, 0, 0, 0⟩) (some ⟨2024, 12, 31, 0, 0, 0⟩) c2Card [c2Card]
    (Or.inl (by decide)) (by simp)
  have hc : extractCard "capterra" (some ⟨2023, 1, 1, 0, 0, 0⟩)
      (some ⟨2024, 12, 31, 0, 0, 0⟩) c2Card =
      some (⟨"T", "B", "garbage", "", "", "capterra"⟩ : ReviewRecord) := by decide
  rw [hc] at hr
  cases Option.some.inj hr
  exact hmem

/-- C6 counterexample: a successfully parsed date is emitted as
`isoformat()` output `2023-01-05T00:00:00`, an ISO-8601 date-time with a
time-of-day component — not an ISO-8601 calendar date as the claim
states. -/
theorem date_field_not_calendar_date :
    parse_date_try "2023-01-05" = some ⟨2023, 1, 5, 0, 0, 0⟩ ∧
    extractCard "g2" none none c6Card =
      some ⟨"Great", "Body", "2023-01-05T00:00:00", "5", "Ann", "g2"⟩ ∧
    isIsoCalendarDate "2023-01-05T00:00:00" = false := by
  decide

/-- C6 as amended: the `date` field of an emitted record is the ISO-8601
date-time rendering (`YYYY-MM-DDTHH:MM:SS`) of the parsed date when the
date text parsed successfully, and the original raw text (possibly empty)
when parsing failed or no date element was found. -/
theorem date_field_isoformat_or_raw (src : String) (b1 b2 : Option Datetime)
    (c : Card) (r : ReviewRecord) (h : extractCard src b1 b2 c = some r) :
    (∀ d, dateTextOf c ≠ "" → parse_date_try (dateTextOf c) = some d →
      r.date = d.isoformat ∧ isIsoDatetimeString r.date = true) ∧
    ((dateTextOf c = "" ∨ parse_date_try (dateTextOf c) = none) →
      r.date = dateTextOf c) := by
  constructor
  · intro d ht hp
    rw [extractCard_of_parsed src b1 b2 c d ht hp] at h
    split at h
    · cases Option.some.inj h
      exact ⟨rfl, isoformat_shape d⟩
    · exact absurd h (by simp)
  · intro hcase
    have hval := extractCard_of_unparsed src b1 b2 c (by
      rcases hcase with ht | hp
      · rw [ht]; decide
      · exact hp)
    rw [hval] at h
    cases Option.some.inj h
    rfl

/-- Closed instance of `date_field_isoformat_or_raw` at a card with the
machine-readable date attribute `2023-01-05`. -/
theorem date_field_isoformat_or_raw_witness :
    (⟨"Great", "Body", "2023-01-05T00:00:00", "5", "Ann", "g2"⟩ : ReviewRecord).date =
      (Datetime.mk 2023 1 5 0 0 0).isoformat ∧
    isIsoDatetimeString
      (⟨"Great", "Body", "2023-01-05T00:00:00", "5", "Ann", "g2"⟩ : ReviewRecord).date = true :=
  (date_field_isoformat_or_raw "g2" none none c6Card
    ⟨"Great", "Body", "2023-01-05T00:00:00", "5", "Ann", "g2"⟩ (by decide)).1
    ⟨2023, 1, 5, 0, 0, 0⟩ (by decide) (by decide)

theorem head_dropWhile_not (p : Char → Bool) (l : List Char) (x : Char)
    (h : (l.dropWhile p).head? = some x) : p x = false := by
  induction l with
  | nil => simp [List.dropWhile] at h
  | cons c cs ih =>
    rw [List.dropWhile_cons] at h
    by_cases hp : p c
    · rw [if_pos hp] at h
      exact ih h
    · rw [if_neg hp] at h
      simp only [List.head?_cons, Option.some.injEq] at h
      subst h
      exact Bool.eq_false_iff.mpr hp

theorem rstripSlash_spec (s : String) :
    (∃ n, s.data = (rstripSlash s).data ++ List.replicate n '/') ∧
    (rstripSlash s).data.getLast? ≠ some '/' := by
  constructor
  · refine ⟨(s.data.reverse.takeWhile (fun c => c == '/')).length, ?_⟩
    have h1 : s.data.reverse.takeWhile (fun c => c == '/') ++
        s.data.reverse.dropWhile (fun c => c == '/') = s.data.reverse :=
      List.takeWhile_append_dropWhile _ _
    have h3 : s.data.reverse.takeWhile (fun c => c == '/') =
        List.replicate ((s.data.reverse.takeWhile (fun c => c == '/')).length) '/' := by
      apply List.eq_replicate_of_mem
      intro b hb
      have hpb := List.mem_takeWhile_imp hb
      simpa using hpb
    have h2 : s.data = (s.data.reverse.dropWhile (fun c => c == '/')).reverse ++
        (s.data.reverse.takeWhile (fun c => c == '/')).reverse := by
      rw [← List.reverse_append, h1, List.reverse_reverse]
    refine h2.trans ?_
    conv_lhs => rw [h3]
    rw [List.reverse_replicate]
    rfl
  · intro hlast
    have hfst : (s.data.reverse.dropWhile (fun c => c == '/')).head? = some '/' := by
      rw [← List.getLast?_reverse]
      exact hlast
    have := head_dropWhile_not (fun c => c == '/') s.data.reverse '/' hfst
    simp at this

/-- C8. For a company argument that already starts with the scheme prefix
`http`, each of the three Locators returns the input with all trailing
slashes stripped and otherwise unchanged (the stripped result is a prefix
of the input, the dropped suffix is a run of slashes, and the result does
not end in a slash), independently of any search response — no network
request influences the result. -/
theorem locator_url_passthrough (company : String) (s1 s2 s3 : Option String)
    (h : strStartsWith company "http" = true) :
    locate_g2 company s1 = rstripSlash company ∧
    locate_capterra company s2 = rstripSlash company ∧
    locate_trustradius company s3 = rstripSlash company ∧
    (∃ n, company.data = (rstripSlash company).data ++ List.replicate n '/') ∧
    (rstripSlash company).data.getLast? ≠ some '/' := by
  refine ⟨?_, ?_, ?_, (rstripSlash_spec company).1, (rstripSlash_spec company).2⟩
  · simp [locate_g2, h]
  · simp [locate_capterra, h]
  · simp [locate_trustradius, h]

/-- Closed instance of `locator_url_passthrough`: the spec's example URL
has its trailing slash stripped, with no search interaction. -/
theorem locator_url_passthrough_witness :
    locate_g2 "https://example.com/p/x/reviews/" none = "https://example.com/p/x/reviews" :=
  ((locator_url_passthrough "https://example.com/p/x/reviews/" none none none
    (by decide)).1).trans (by decide)

/-- C9. Every record produced by a pipeline carries exactly that pipeline's
source tag — `"g2"`, `"capterra"` or `"trustradius"` — over all pages and
cards of the run. -/
theorem record_source_tag (company : String) (b1 b2 : Option Datetime)
    (sl : Option String) (fetch : String → Page) (fuel : Nat) (r : ReviewRecord) :
    (r ∈ scrape_g2 company b1 b2 sl fetch fuel → r.source = "g2") ∧
    (r ∈ scrape_capterra company b1 b2 sl fetch fuel → r.source = "capterra") ∧
    (r ∈ scrape_trustradius company b1 b2 sl fetch fuel → r.source = "trustradius") := by
  refine ⟨fun h => ?_, fun h => ?_, fun h => ?_⟩
  · exact mem_paginate_source "g2" b1 b2 _ fetch fuel 1 r h
  · exact mem_paginate_source "capterra" b1 b2 _ fetch fuel 1 r h
  · exact mem_paginate_source "trustradius" b1 b2 _ fetch fuel 1 r h

/-- Closed instance of `record_source_tag`: the record scraped from the
one-page g2 site carries the tag `"g2"`. -/
theorem record_source_tag_witness :
    (⟨"T", "", "", "", "", "g2"⟩ : ReviewRecord).source = "g2" :=
  (record_source_tag "https://y.example/p" none none none c9Fetch 3
    ⟨"T", "", "", "", "", "g2"⟩).1 (by decide)

end Scraper
